import Mathlib

/- Verification development for the FCA Handbook RAG chatbot
   (repository `Desticius/FCAchatbot`, files `backend/app.py` and
   `rag_chatbot.py`).

   Text is modelled as `List Char`, matching a Python `str` viewed as a
   sequence of Unicode code points: Python `len`, slicing and `re.split`
   all operate on code points, exactly as `List.length`, `List.take` and
   explicit recursion do here.

   The chunker used by the repository is langchain's
   `CharacterTextSplitter` (constructed in `backend/app.py` lines 104-107,
   147-150, 182-185 and `rag_chatbot.py` line 16) with its default
   separator `"\n\n"`, `keep_separator=False`, `strip_whitespace=True` and
   `length_function=len`.  Its `split_text` / `_merge_splits` /
   `_join_docs` pipeline is embedded below definition by definition. -/

namespace FCAChatbot

/-! ### Python string primitives -/

/-- The whitespace characters recognised by Python `str.strip()`, restricted
to the ASCII whitespace characters (the only ones occurring in this
development). -/
def isPySpace (c : Char) : Bool :=
  c = ' ' || c = '\t' || c = '\n' || c = '\r' || c = '\x0b' || c = '\x0c'

/-- Python `str.strip()`: drop leading and trailing whitespace. -/
def pyStrip (l : List Char) : List Char :=
  (l.dropWhile isPySpace).rdropWhile isPySpace

/-- Python `text[:n]` (slice of the first `n` code points). -/
def pySlice (l : List Char) (n : Nat) : List Char := l.take n

/-- Python `s.endswith(suffix)`, on code points. -/
def pyEndsWith (s suffix : String) : Bool :=
  suffix.data.isSuffixOf s.data

/-! ### The chunker: langchain `CharacterTextSplitter`

`CharacterTextSplitter.split_text(text)` computes
`re.split(re.escape("\n\n"), text)`, drops empty pieces, and merges the
pieces back together with `_merge_splits(splits, "\n\n")`. -/

/-- The splitter separator `"\n\n"`. -/
def sepChars : List Char := ['\n', '\n']

/-- `len("\n\n")`, the `separator_len` of `_merge_splits`. -/
def sepLen : Nat := 2

/-- `re.split` on the literal separator `"\n\n"`: scan left to right,
cutting at each non-overlapping occurrence of two consecutive newlines.
`acc` is the (reversed) piece currently being built. -/
def splitOnSep : List Char → List Char → List (List Char)
  | [], acc => [acc.reverse]
  | '\n' :: '\n' :: rest, acc => acc.reverse :: splitOnSep rest []
  | c :: rest, acc => splitOnSep rest (c :: acc)

/-- `"\n\n".join(docs)`. -/
def joinSep : List (List Char) → List Char
  | [] => []
  | [d] => d
  | d :: ds => d ++ sepChars ++ joinSep ds

/-- `TextSplitter._join_docs(docs, separator)`: join with the separator,
strip whitespace (`_strip_whitespace=True`), and return `None` when the
result is empty. -/
def joinDocs (docs : List (List Char)) : Option (List Char) :=
  let text := pyStrip (joinSep docs)
  if text = [] then none else some text

/-- The inner `while` loop of `TextSplitter._merge_splits`: keep popping the
front of `current_doc` while the running total exceeds the overlap, or the
next piece would not fit.  `dlen` is the length of the incoming piece `d`.
The loop is only ever entered with `total` equal to the joined length of
`current_doc`, so with an empty `current_doc` the total is `0` and the loop
condition is false; the `[]` case below returns accordingly. -/
def popLoop (cs co dlen : Nat) : List (List Char) → Nat → List (List Char) × Nat
  | [], total => ([], total)
  | d :: rest, total =>
      if total > co ∨ (total + dlen + sepLen > cs ∧ total > 0) then
        popLoop cs co dlen rest (total - (d.length + if rest = [] then 0 else sepLen))
      else (d :: rest, total)

/-- `TextSplitter._merge_splits(splits, separator)` with
`chunk_size = cs`, `chunk_overlap = co` and `length_function = len`:
greedily pack the separator-delimited pieces into chunks of at most `cs`
characters, emitting a joined chunk whenever the next piece would not fit
and retaining up to `co` characters of trailing pieces as overlap.  A piece
longer than `cs` is emitted on its own (the Python code only logs a
warning). -/
def mergeSplits (cs co : Nat) : List (List Char) → List (List Char) → Nat → List (List Char)
  | [], curr, _total => (joinDocs curr).toList
  | d :: ds, curr, total =>
      let dlen := d.length
      if total + dlen + (if curr = [] then 0 else sepLen) > cs then
        if curr = [] then
          mergeSplits cs co ds [d] (total + dlen)
        else
          let popped := popLoop cs co dlen curr total
          (joinDocs curr).toList ++
            mergeSplits cs co ds (popped.1 ++ [d])
              (popped.2 + dlen + (if popped.1 = [] then 0 else sepLen))
      else
        mergeSplits cs co ds (curr ++ [d]) (total + dlen + (if curr = [] then 0 else sepLen))

/-- `CharacterTextSplitter.split_text(text)`. -/
def splitText (cs co : Nat) (text : List Char) : List (List Char) :=
  mergeSplits cs co ((splitOnSep text []).filter (fun s => !s.isEmpty)) [] 0

/-- `TextSplitter.__init__`: raises `ValueError` when the overlap is larger
than the chunk size (equality is accepted). -/
def splitterInit (cs co : Nat) : Except String Unit :=
  if co > cs then
    Except.error "Got a larger chunk overlap than chunk size, should be smaller."
  else Except.ok ()

/-! ### Documents and chunks

langchain `Document`s: a `page_content` string plus metadata.  The only
metadata fields this repository reads or writes are the loader-supplied
`source`/`page` pair and the `source_file` key stamped by
`load_internal_documents` (app.py lines 110-113). -/

structure DocMeta where
  source : String
  page : Nat
  sourceFile : Option String := none
deriving DecidableEq, Repr

/-- A langchain `Document` (also used for the chunks produced by
`split_documents`, which are again `Document`s). -/
structure Doc where
  pageContent : List Char
  metadata : DocMeta
deriving DecidableEq, Repr

/-- `TextSplitter.split_documents(docs)` /`create_documents`: split each
document's `page_content` and attach a copy of that document's metadata to
every resulting chunk. -/
def splitDocuments (cs co : Nat) (docs : List Doc) : List Doc :=
  docs.flatMap fun doc =>
    (splitText cs co doc.pageContent).map fun t => { doc with pageContent := t }

/-! ### The backend application (`backend/app.py`)

External effects are abstracted into an environment `Env`:
* `loadPdf` is the outcome of `PyPDFLoader(path).load()` (one `Doc` per
  page on success, an exception message on failure);
* `embedOk` is the availability of the embedding capability
  (`Chroma.from_texts` / `add_texts` raise when it is false, and are
  treated as atomic: on failure the existing collection is unchanged);
* `qaOk` is the availability of `ChatOpenAI` / `RetrievalQA.from_chain_type`
  in `create_qa_chain`;
* `genOk` is the availability of the LLM during `qa_chain.invoke`;
* `rank` is the similarity ordering produced by the Chroma retriever for a
  query (the retriever then keeps the first `k` of it);
* `generate` is the LLM answer for a question and a context. -/

structure Env where
  loadPdf : String → Except String (List Doc)
  embedOk : Bool
  qaOk : Bool
  genOk : Bool
  rank : List Doc → String → List Doc
  generate : String → List Char → String

/-- Python-level errors raised by the helper functions of `app.py`. -/
inductive PyErr where
  | valueError (msg : String)
  | loadError (msg : String)
  | embedError
  | chainError
deriving DecidableEq, Repr

/-- The message used when a `PyErr` is interpolated into an HTTP detail
string (`str(e)` in the code). -/
def PyErr.msg : PyErr → String
  | .valueError m => m
  | .loadError m => m
  | .embedError => "embedding capability unavailable"
  | .chainError => "chain creation failed"

/-- An HTTP error response (`fastapi.HTTPException`). -/
structure HttpError where
  code : Nat
  detail : String
deriving DecidableEq, Repr

/-- The vector store: the texts and metadatas held by the Chroma
collection, in insertion order. -/
abbrev VectorStore := List Doc

/-- `create_vectorstore(pdf_path, chunk_size, chunk_overlap)` (app.py lines
142-174): load the PDF, construct the splitter (whose `__init__` validates
the chunk parameters), split, reject an empty chunk list, drop chunks whose
stripped text is empty, reject an empty remainder, and build the store with
`Chroma.from_texts`. -/
def createVectorstore (env : Env) (pdfPath : String) (cs co : Nat) :
    Except PyErr VectorStore :=
  match env.loadPdf pdfPath with
  | .error e => .error (.loadError e)
  | .ok docs =>
      match splitterInit cs co with
      | .error e => .error (.valueError e)
      | .ok _ =>
          let chunks := splitDocuments cs co docs
          if chunks.isEmpty then
            .error (.valueError "No content could be extracted from the PDF")
          else
            let kept := chunks.filter fun c => !(pyStrip c.pageContent).isEmpty
            if kept.isEmpty then
              .error (.valueError "No valid text content found in PDF")
            else if env.embedOk then .ok kept
            else .error .embedError

/-- `add_to_vectorstore(pdf_path, existing_vectorstore, chunk_size,
chunk_overlap)` (app.py lines 176-199): load, split, and append every chunk
to the existing store with `add_texts` — note that, unlike
`create_vectorstore`, this path applies no empty-text filter. -/
def addToVectorstore (env : Env) (pdfPath : String) (existing : VectorStore)
    (cs co : Nat) : Except PyErr VectorStore :=
  match env.loadPdf pdfPath with
  | .error e => .error (.loadError e)
  | .ok docs =>
      match splitterInit cs co with
      | .error e => .error (.valueError e)
      | .ok _ =>
          let chunks := splitDocuments cs co docs
          if env.embedOk then .ok (existing ++ chunks)
          else .error .embedError

/-- The answer-combination strategy passed to
`RetrievalQA.from_chain_type` as `chain_type`. -/
inductive ChainType where
  | stuff
  | mapReduce
deriving DecidableEq, Repr

/-- The QA chain built by `RetrievalQA.from_chain_type`: it owns the
retriever over a vector store with its `k`, the combination strategy, and
whether sources are returned. -/
structure QAChain where
  store : VectorStore
  k : Nat
  chainType : ChainType
  returnSourceDocuments : Bool

/-- `create_qa_chain(vectorstore, ...)` (app.py lines 201-226):
`chain_type="stuff"`, retriever `search_kwargs={"k": 3}`,
`return_source_documents=True`. -/
def createQaChain (env : Env) (vs : VectorStore) : Except PyErr QAChain :=
  if env.qaOk then .ok { store := vs, k := 3, chainType := .stuff, returnSourceDocuments := true }
  else .error .chainError

/-- The module-level mutable state of `app.py` (lines 50-54). -/
structure AppState where
  vectorstore : Option VectorStore
  qaChain : Option QAChain
  processedFiles : List String

/-- The state at process start: all globals unset. -/
def initialState : AppState :=
  { vectorstore := none, qaChain := none, processedFiles := [] }

/-- Set `source_file` in every chunk's metadata (app.py lines 110-113). -/
def stampSourceFile (filename : String) (chunks : List Doc) : List Doc :=
  chunks.map fun c => { c with metadata := { c.metadata with sourceFile := some filename } }

/-- The `for pdf_path in pdf_files` loop of `load_internal_documents`
(app.py lines 97-118), run inside a single `try`: load and split each file
with `chunk_size=150, chunk_overlap=25`, stamp the filename, accumulate the
chunks, and append the filename to `processed_files`.  The first exception
aborts the whole loop, keeping the chunks and filenames accumulated so far
(the filename appends are mutations of the global list, so they survive the
exception). -/
def loadLoop (env : Env) : List String → List Doc → List String →
    List Doc × List String × Bool
  | [], chunks, files => (chunks, files, true)
  | p :: ps, chunks, files =>
      match env.loadPdf p with
      | .error _ => (chunks, files, false)
      | .ok docs =>
          let newChunks := stampSourceFile p (splitDocuments 150 25 docs)
          loadLoop env ps (chunks ++ newChunks) (files ++ [p])

/-- `load_internal_documents()` (app.py lines 76-140).  `pdfFiles` is the
result of the `glob` over the `internal_documents` directory (file names
are used directly as paths here).  Returns the updated global state and the
function's boolean result.  On success the vector store is rebuilt from
scratch from all accumulated chunks whose stripped text is non-empty; on
any exception the function logs and returns `False`, with `vectorstore`
untouched but `processed_files` keeping every filename appended before the
exception. -/
def loadInternalDocuments (env : Env) (pdfFiles : List String) (s : AppState) :
    AppState × Bool :=
  if pdfFiles.isEmpty then (s, false)
  else
    let r := loadLoop env pdfFiles [] []
    let s1 := { s with processedFiles := s.processedFiles ++ r.2.1 }
    if !r.2.2 then (s1, false)
    else
      let kept := r.1.filter fun c => !(pyStrip c.pageContent).isEmpty
      if kept.isEmpty then (s1, false)
      else if env.embedOk then ({ s1 with vectorstore := some kept }, true)
      else (s1, false)

/-- `POST /reload-internal-documents` (app.py lines 256-281): unconditionally
reset `vectorstore`, `qa_chain` and `processed_files`, then reload.  On a
load failure the handler raises 404, which the surrounding
`except Exception` rewraps into a 500; on a `create_qa_chain` failure it
raises 500.  Returns the final global state and the HTTP outcome (the list
of documents loaded on success). -/
def reloadInternalDocuments (env : Env) (pdfFiles : List String) (_s : AppState) :
    AppState × Except HttpError (List String) :=
  let r := loadInternalDocuments env pdfFiles initialState
  if r.2 then
    match r.1.vectorstore with
    | some vs =>
        match createQaChain env vs with
        | .ok chain =>
            ({ r.1 with qaChain := some chain }, .ok r.1.processedFiles)
        | .error e =>
            (r.1, .error ⟨500, "Error reloading documents: " ++ e.msg⟩)
    | none =>
        -- unreachable: `load_internal_documents` only returns `True` after
        -- assigning the global `vectorstore`
        (r.1, .error ⟨500, "Error reloading documents: vectorstore is None"⟩)
  else
    (r.1, .error ⟨500,
      "Error reloading documents: 404: No documents found in internal_documents directory"⟩)

/-- `POST /upload-pdf` (app.py lines 339-378): reject non-`.pdf` filenames
with 400; on an empty store create a fresh vector store and replace
`processed_files` with just this file; on an existing store extend it and
append the filename; then rebuild the QA chain.  Any exception becomes a
500, but global assignments already executed before the exception are kept
(in particular, a `create_qa_chain` failure happens after the store and the
registry were already updated, and leaves `qa_chain` at its previous
value). -/
def uploadPdf (env : Env) (s : AppState) (filename tmpPath : String) :
    AppState × Except HttpError (String × Nat × List String) :=
  if !(pyEndsWith filename ".pdf") then
    (s, .error ⟨400, "Only PDF files are supported"⟩)
  else
    match s.vectorstore with
    | none =>
        match createVectorstore env tmpPath 150 25 with
        | .error e => (s, .error ⟨500, "Error processing PDF: " ++ e.msg⟩)
        | .ok vs =>
            let s1 := { s with vectorstore := some vs, processedFiles := [filename] }
            match createQaChain env vs with
            | .error e => (s1, .error ⟨500, "Error processing PDF: " ++ e.msg⟩)
            | .ok chain =>
                ({ s1 with qaChain := some chain },
                 .ok ("PDF uploaded and vectorstore created successfully",
                      s1.processedFiles.length, s1.processedFiles))
    | some vs =>
        match addToVectorstore env tmpPath vs 150 25 with
        | .error e => (s, .error ⟨500, "Error processing PDF: " ++ e.msg⟩)
        | .ok vs' =>
            let s1 := { s with vectorstore := some vs',
                               processedFiles := s.processedFiles ++ [filename] }
            match createQaChain env vs' with
            | .error e => (s1, .error ⟨500, "Error processing PDF: " ++ e.msg⟩)
            | .ok chain =>
                ({ s1 with qaChain := some chain },
                 .ok ("PDF uploaded and added to existing knowledge base",
                      s1.processedFiles.length, s1.processedFiles))

/-- One source excerpt of a query response (app.py lines 395-401). -/
structure SourceExcerpt where
  content : List Char
  metadata : DocMeta
deriving DecidableEq, Repr

/-- The body of `QueryResponse` (app.py lines 63-65). -/
structure QueryResponse where
  answer : String
  sourceDocuments : List SourceExcerpt
deriving DecidableEq, Repr

/-- The excerpt preview built at app.py line 397:
`doc.page_content[:200] + "..." if len(doc.page_content) > 200 else
doc.page_content`. -/
def previewContent (t : List Char) : List Char :=
  if t.length > 200 then pySlice t 200 ++ ['.', '.', '.'] else t

/-- The documents the retriever hands to the chain: the similarity ranking
for the query, cut to the retriever's `k` (`search_kwargs={"k": 3}`). -/
def retrieveDocs (env : Env) (chain : QAChain) (q : String) : List Doc :=
  (env.rank chain.store q).take chain.k

/-- The context a `chain_type="stuff"` chain passes to the single LLM call:
the retrieved passages joined verbatim. -/
def stuffContext (passages : List (List Char)) : List Char :=
  joinSep passages

/-- How many LLM (Generator) calls one query makes under each
`chain_type`: `"stuff"` makes exactly one call on the joined context, while
`"map_reduce"` first maps one call over each retrieved passage and then
makes one combine call. -/
def generatorCallCount (ct : ChainType) (numPassages : Nat) : Nat :=
  match ct with
  | .stuff => 1
  | .mapReduce => numPassages + 1

/-- `POST /query` (app.py lines 380-410): with no QA chain, reply 400
"Please add documents ..."; otherwise run the chain (one retrieval, then
the generation calls of the chain's strategy) and build the response with
at most `k` source excerpts, each previewed by `previewContent`.  A
generation failure becomes a 500. -/
def queryDocument (env : Env) (s : AppState) (question : String) :
    Except HttpError QueryResponse :=
  match s.qaChain with
  | none =>
      .error ⟨400,
        "Please add documents to internal_documents directory or upload a PDF first"⟩
  | some chain =>
      if env.genOk then
        let docs := retrieveDocs env chain question
        .ok { answer := env.generate question (stuffContext (docs.map (·.pageContent)))
              sourceDocuments :=
                docs.map fun d => { content := previewContent d.pageContent
                                    metadata := d.metadata } }
      else .error ⟨500, "Error processing query"⟩

/-- `DELETE /clear-knowledge-base` (app.py lines 412-424). -/
def clearKnowledgeBase (_s : AppState) : AppState × String :=
  (initialState, "Knowledge base cleared successfully")

/-! ### `rag_chatbot.py`

The standalone script builds its own splitter and chain (lines 14-36):
`CharacterTextSplitter(chunk_size=300, chunk_overlap=50)` and
`RetrievalQA.from_chain_type(..., chain_type="map_reduce", k=3)`. -/

def ragChatbotChunkSize : Nat := 300

def ragChatbotChunkOverlap : Nat := 50

def ragChatbotChainType : ChainType := .mapReduce

def ragChatbotRetrievalK : Nat := 3

/-! ### The knowledge-base invariant -/

/-- The invariant of claim C4 on a vector store: no stored entry has empty
stripped text. -/
def goodStore (v : VectorStore) : Prop := ∀ d ∈ v, pyStrip d.pageContent ≠ []

/-- The invariant lifted to the application state. -/
def stateGood (s : AppState) : Prop := ∀ v, s.vectorstore = some v → goodStore v

/-! ### Concrete environments and states used by counterexamples and
witnesses -/

def docA : Doc := { pageContent := ['A'], metadata := { source := "a.pdf", page := 0 } }

def docB : Doc := { pageContent := ['B', 'B'], metadata := { source := "tmp", page := 0 } }

def chainC2 : QAChain :=
  { store := [docA], k := 3, chainType := .stuff, returnSourceDocuments := true }

/-- A Ready state holding one ingested document. -/
def sC2 : AppState :=
  { vectorstore := some [docA], qaChain := some chainC2, processedFiles := ["a.pdf"] }

/-- Loading and embedding work, but chain creation fails. -/
def envC2 : Env :=
  { loadPdf := fun _ => .ok [docB], embedOk := true, qaOk := false, genOk := true,
    rank := fun v _ => v, generate := fun _ _ => "ans" }

/-- Loading works but the embedding capability is down. -/
def envW2 : Env :=
  { loadPdf := fun _ => .ok [docB], embedOk := false, qaOk := true, genOk := true,
    rank := fun v _ => v, generate := fun _ _ => "ans" }

def docC3 : Doc :=
  { pageContent := ['h', 'i'], metadata := { source := "good.pdf", page := 0 } }

/-- One loadable file, every other file corrupt. -/
def envC3 : Env :=
  { loadPdf := fun p => if p = "good.pdf" then .ok [docC3] else .error "corrupt",
    embedOk := true, qaOk := true, genOk := true,
    rank := fun v _ => v, generate := fun _ _ => "ans" }

def docW4 : Doc := { pageContent := ['o', 'k'], metadata := { source := "w.pdf", page := 0 } }

def envW4 : Env :=
  { loadPdf := fun _ => .ok [docW4], embedOk := true, qaOk := true, genOk := true,
    rank := fun v _ => v, generate := fun _ _ => "ans" }

/-- A chunk whose text is 201 characters long. -/
def doc201 : Doc :=
  { pageContent := List.replicate 201 'A', metadata := { source := "doc.pdf", page := 0 } }

def chainC5 : QAChain :=
  { store := [doc201], k := 3, chainType := .stuff, returnSourceDocuments := true }

def sC5 : AppState :=
  { vectorstore := some [doc201], qaChain := some chainC5, processedFiles := ["doc.pdf"] }

def envC5 : Env :=
  { loadPdf := fun _ => .error "unused", embedOk := true, qaOk := true, genOk := true,
    rank := fun v _ => v, generate := fun _ _ => "ans" }

def docW5 : Doc := { pageContent := ['h', 'i'], metadata := { source := "w5.pdf", page := 0 } }

def chainW5 : QAChain :=
  { store := [docW5], k := 3, chainType := .stuff, returnSourceDocuments := true }

def sW5 : AppState :=
  { vectorstore := some [docW5], qaChain := some chainW5, processedFiles := ["w5.pdf"] }

def envW5 : Env :=
  { loadPdf := fun _ => .error "unused", embedOk := true, qaOk := true, genOk := true,
    rank := fun v _ => v, generate := fun _ _ => "ans" }

def envC6 : Env :=
  { loadPdf := fun _ => .error "no documents", embedOk := true, qaOk := true, genOk := true,
    rank := fun v _ => v, generate := fun _ _ => "ans" }

/-- Every load fails. -/
def envC7 : Env :=
  { loadPdf := fun _ => .error "boom", embedOk := true, qaOk := true, genOk := true,
    rank := fun v _ => v, generate := fun _ _ => "ans" }

def envC8 : Env :=
  { loadPdf := fun _ => .error "unused", embedOk := true, qaOk := true, genOk := true,
    rank := fun v _ => v, generate := fun _ _ => "ans" }

def chainW8 : QAChain :=
  { store := [], k := 3, chainType := .stuff, returnSourceDocuments := true }

def docC10 : Doc :=
  { pageContent := ['f', 'c', 'a'], metadata := { source := "good.pdf", page := 0 } }

/-- The one internal document loads, but chain creation fails. -/
def envC10 : Env :=
  { loadPdf := fun _ => .ok [docC10], embedOk := true, qaOk := false, genOk := true,
    rank := fun v _ => v, generate := fun _ _ => "ans" }

/-! ### Properties of the chunker -/

/-- Stripping is idempotent: what `_join_docs` emits is already stripped. -/
lemma pyStrip_idem (l : List Char) : pyStrip (pyStrip l) = pyStrip l := by
  unfold pyStrip
  have hA : List.dropWhile isPySpace ((List.dropWhile isPySpace l).rdropWhile isPySpace)
      = (List.dropWhile isPySpace l).rdropWhile isPySpace := by
    rw [List.dropWhile_eq_self_iff]
    intro hl
    have hpre := List.rdropWhile_prefix isPySpace (List.dropWhile isPySpace l)
    have hlen : 0 < (List.dropWhile isPySpace l).length :=
      lt_of_lt_of_le hl hpre.length_le
    have hnot := List.dropWhile_get_zero_not isPySpace l hlen
    simp only [List.get_eq_getElem] at hnot ⊢
    rwa [hpre.getElem hl]
  rw [hA, List.rdropWhile_idempotent]

/-- A text in which the separator `"\n\n"` does not occur (no two
consecutive newlines — lone newlines are allowed) is returned by
`re.split` as the single piece. -/
lemma splitOnSep_no_sep (t : List Char) : ∀ acc, ¬ (sepChars <:+: t) →
    splitOnSep t acc = [acc.reverse ++ t] := by
  induction t with
  | nil => intro acc _; simp [splitOnSep]
  | cons c rest ih =>
      intro acc h
      by_cases hg : c = '\n' ∧ rest.head? = some '\n'
      · obtain ⟨rfl, hh⟩ := hg
        obtain ⟨r2, rest', rfl⟩ : ∃ r2 rest', rest = r2 :: rest' := by
          cases rest with
          | nil => cases hh
          | cons a as => exact ⟨a, as, rfl⟩
        rw [List.head?_cons, Option.some_inj] at hh
        subst hh
        exact absurd ⟨[], rest', rfl⟩ h
      · rw [splitOnSep.eq_3 acc c rest
          (fun r1 hc hr => hg ⟨hc, by rw [hr]; rfl⟩)]
        rw [ih (c :: acc) (fun hm => h (List.infix_cons hm))]
        simp

/-- Merging a single piece emits it as the single (joined) chunk, whatever
the chunk size: `_merge_splits` never cuts inside a piece. -/
lemma mergeSplits_single (cs co : Nat) (d : List Char) :
    mergeSplits cs co [d] [] 0 = (joinDocs [d]).toList := by
  simp only [mergeSplits]
  split_ifs <;> simp [mergeSplits]

lemma joinDocs_single (d : List Char) :
    joinDocs [d] = if pyStrip d = [] then none else some (pyStrip d) := by
  simp [joinDocs, joinSep]

/-- `split_text` on a document in which the blank-line separator does not
occur returns the whole stripped document as one chunk (or nothing when it
strips to nothing), regardless of `chunk_size` and `chunk_overlap`. -/
lemma splitText_no_sep (cs co : Nat) (t : List Char) (hn : ¬ (sepChars <:+: t))
    (ht : t ≠ []) :
    splitText cs co t = if pyStrip t = [] then [] else [pyStrip t] := by
  unfold splitText
  rw [splitOnSep_no_sep t [] hn]
  simp only [List.reverse_nil, List.nil_append]
  obtain ⟨a, as, rfl⟩ := List.exists_cons_of_ne_nil ht
  rw [show List.filter (fun s => !s.isEmpty) [a :: as] = [a :: as] by simp [List.filter]]
  rw [mergeSplits_single, joinDocs_single]
  split <;> simp

lemma mem_joinDocs_toList (curr : List (List Char)) (c : List Char)
    (h : c ∈ (joinDocs curr).toList) : c = pyStrip (joinSep curr) ∧ c ≠ [] := by
  simp only [joinDocs] at h
  split at h
  · simp at h
  · next hne =>
      simp only [Option.toList_some, List.mem_singleton] at h
      exact ⟨h, h ▸ hne⟩

/-- Every chunk `_merge_splits` emits came out of `_join_docs`: it is a
stripped, non-empty text. -/
lemma mergeSplits_mem (cs co : Nat) (ds : List (List Char)) :
    ∀ (curr : List (List Char)) (total : Nat) (c : List Char),
      c ∈ mergeSplits cs co ds curr total → ∃ u, c = pyStrip u ∧ c ≠ [] := by
  induction ds with
  | nil =>
      intro curr total c hc
      simp only [mergeSplits] at hc
      obtain ⟨h1, h2⟩ := mem_joinDocs_toList curr c hc
      exact ⟨joinSep curr, h1, h2⟩
  | cons d ds ih =>
      intro curr total c hc
      have happ : ∀ (l2 : List (List Char)) (t2 : Nat),
          c ∈ (joinDocs curr).toList ++ mergeSplits cs co ds l2 t2 →
          ∃ u, c = pyStrip u ∧ c ≠ [] := by
        intro l2 t2 h
        rcases List.mem_append.mp h with h | h
        · obtain ⟨ha, hb⟩ := mem_joinDocs_toList curr c h
          exact ⟨joinSep curr, ha, hb⟩
        · exact ih _ _ c h
      simp only [mergeSplits] at hc
      split_ifs at hc <;> first | exact ih _ _ c hc | exact happ _ _ hc

/-- Every chunk produced by `split_text` still has non-empty stripped
text. -/
lemma splitText_strip_ne (cs co : Nat) (t c : List Char) (h : c ∈ splitText cs co t) :
    pyStrip c ≠ [] := by
  obtain ⟨u, rfl, hne⟩ := mergeSplits_mem cs co _ [] 0 c h
  rw [pyStrip_idem]
  exact hne

/-- Every chunk produced by `split_documents` has non-empty stripped
text. -/
lemma splitDocuments_strip_ne (cs co : Nat) (docs : List Doc) (d : Doc)
    (h : d ∈ splitDocuments cs co docs) : pyStrip d.pageContent ≠ [] := by
  simp only [splitDocuments, List.mem_flatMap, List.mem_map] at h
  obtain ⟨doc, _, t, ht, rfl⟩ := h
  exact splitText_strip_ne cs co _ t ht

/-! ### Properties of the application operations -/

/-- If some file of the directory fails to load, the whole
`load_internal_documents` loop reports failure. -/
lemma loadLoop_fail (env : Env) (pdfs : List String)
    (hfail : ∃ p ∈ pdfs, ∃ m, env.loadPdf p = .error m) :
    ∀ (chunks : List Doc) (files : List String),
      (loadLoop env pdfs chunks files).2.2 = false := by
  induction pdfs with
  | nil => simp at hfail
  | cons p ps ih =>
      intro chunks files
      simp only [loadLoop]
      split
      · rfl
      · next docs heq =>
          rcases hfail with ⟨q, hq, m, hm⟩
          rcases List.mem_cons.mp hq with rfl | hq'
          · rw [heq] at hm; exact absurd hm (by simp)
          · exact ih ⟨q, hq', m, hm⟩ _ _

/-- Case analysis of `load_internal_documents`: it never touches
`qa_chain`; on failure it leaves `vectorstore` unchanged; on success it
replaces `vectorstore` by the filtered accumulated chunks. -/
lemma loadInternalDocuments_cases (env : Env) (pdfs : List String) (s : AppState) :
    (loadInternalDocuments env pdfs s).1.qaChain = s.qaChain ∧
    (((loadInternalDocuments env pdfs s).2 = false ∧
      (loadInternalDocuments env pdfs s).1.vectorstore = s.vectorstore) ∨
     ((loadInternalDocuments env pdfs s).2 = true ∧
      (loadLoop env pdfs [] []).2.2 = true ∧
      (loadInternalDocuments env pdfs s).1.vectorstore =
        some (List.filter (fun c => !(pyStrip c.pageContent).isEmpty)
          (loadLoop env pdfs [] []).1))) := by
  simp only [loadInternalDocuments]
  split_ifs with h1 h2 h3 h4 <;> simp_all

lemma createVectorstore_good (env : Env) (p : String) (cs co : Nat) (v : VectorStore)
    (h : createVectorstore env p cs co = .ok v) : goodStore v := by
  simp only [createVectorstore] at h
  split at h
  · exact absurd h (by simp)
  · split at h
    · exact absurd h (by simp)
    · split at h
      · exact absurd h (by simp)
      · split at h
        · exact absurd h (by simp)
        · split at h
          · rw [Except.ok.injEq] at h
            subst h
            intro d hd
            simpa using List.of_mem_filter hd
          · exact absurd h (by simp)

lemma addToVectorstore_good (env : Env) (p : String) (existing : VectorStore)
    (cs co : Nat) (v' : VectorStore) (hex : goodStore existing)
    (h : addToVectorstore env p existing cs co = .ok v') : goodStore v' := by
  simp only [addToVectorstore] at h
  split at h
  · exact absurd h (by simp)
  · next docs heq =>
      split at h
      · exact absurd h (by simp)
      · split at h
        · rw [Except.ok.injEq] at h
          subst h
          intro d hd
          rcases List.mem_append.mp hd with hmem | hmem
          · exact hex d hmem
          · exact splitDocuments_strip_ne cs co docs d hmem
        · exact absurd h (by simp)

lemma loadInternalDocuments_good (env : Env) (pdfs : List String) (s : AppState)
    (hs : stateGood s) : stateGood (loadInternalDocuments env pdfs s).1 := by
  rcases (loadInternalDocuments_cases env pdfs s).2 with ⟨_, hvs⟩ | ⟨_, _, hvs⟩
  · intro v hv
    exact hs v (hvs ▸ hv)
  · intro v hv
    rw [hvs, Option.some_inj] at hv
    subst hv
    intro d hd
    simpa using List.of_mem_filter hd

lemma uploadPdf_good (env : Env) (s : AppState) (f p : String) (hs : stateGood s) :
    stateGood (uploadPdf env s f p).1 := by
  unfold uploadPdf
  split_ifs with hpdf
  · exact hs
  · split
    · split
      · exact hs
      · next vs hcv =>
          have hg := createVectorstore_good env p 150 25 vs hcv
          split
          · exact fun v hv => (Option.some_inj.mp hv) ▸ hg
          · exact fun v hv => (Option.some_inj.mp hv) ▸ hg
    · next vs hvs =>
        split
        · exact hs
        · next vs' hadd =>
            have hg := addToVectorstore_good env p vs 150 25 vs' (hs vs hvs) hadd
            split
            · exact fun v hv => (Option.some_inj.mp hv) ▸ hg
            · exact fun v hv => (Option.some_inj.mp hv) ▸ hg

lemma initialState_good : stateGood initialState := fun _ hv => by cases hv

lemma reloadInternalDocuments_good (env : Env) (pdfs : List String) (s : AppState) :
    stateGood (reloadInternalDocuments env pdfs s).1 := by
  have hld := loadInternalDocuments_good env pdfs initialState initialState_good
  simp only [reloadInternalDocuments]
  split_ifs with h1
  · split
    · split
      · exact fun v hv => hld v hv
      · exact hld
    · exact hld
  · exact hld

lemma clearKnowledgeBase_good (s : AppState) : stateGood (clearKnowledgeBase s).1 :=
  initialState_good

lemma uploadPdf_extend_error (env : Env) (s : AppState) (f p : String)
    (vs : VectorStore) (e : PyErr) (hpdf : pyEndsWith f ".pdf" = true)
    (hvs : s.vectorstore = some vs)
    (hfail : addToVectorstore env p vs 150 25 = .error e) :
    uploadPdf env s f p = (s, .error ⟨500, "Error processing PDF: " ++ e.msg⟩) := by
  simp [uploadPdf, hpdf, hvs, hfail]

lemma uploadPdf_qa_fail (env : Env) (s : AppState) (f p : String)
    (vs vs' : VectorStore) (hpdf : pyEndsWith f ".pdf" = true)
    (hvs : s.vectorstore = some vs)
    (hadd : addToVectorstore env p vs 150 25 = .ok vs') (hqa : env.qaOk = false) :
    uploadPdf env s f p =
      ({ s with vectorstore := some vs', processedFiles := s.processedFiles ++ [f] },
       .error ⟨500, "Error processing PDF: chain creation failed"⟩) := by
  simp [uploadPdf, createQaChain, hpdf, hvs, hadd, hqa, PyErr.msg]

lemma queryDocument_ok (env : Env) (s : AppState) (q : String) (chain : QAChain)
    (hc : s.qaChain = some chain) (hg : env.genOk = true) :
    queryDocument env s q = .ok
      { answer := env.generate q
          (stuffContext ((retrieveDocs env chain q).map (·.pageContent)))
        sourceDocuments := (retrieveDocs env chain q).map fun d =>
          { content := previewContent d.pageContent, metadata := d.metadata } } := by
  simp [queryDocument, hc, hg]

lemma previewContent_length_le (t : List Char) : (previewContent t).length ≤ 203 := by
  unfold previewContent pySlice
  split
  · simp only [List.length_append, List.length_take, List.length_cons, List.length_nil]
    omega
  · next h => omega

lemma retrieveDocs_length_le (env : Env) (chain : QAChain) (q : String) :
    (retrieveDocs env chain q).length ≤ chain.k := by
  unfold retrieveDocs
  exact List.length_take_le _ _

lemma reloadInternalDocuments_load_fail (env : Env) (pdfs : List String) (s : AppState)
    (h : (loadInternalDocuments env pdfs initialState).2 = false) :
    (reloadInternalDocuments env pdfs s).1.vectorstore = none ∧
    (reloadInternalDocuments env pdfs s).1.qaChain = none := by
  have hcases := loadInternalDocuments_cases env pdfs initialState
  rcases hcases.2 with ⟨_, hvs⟩ | ⟨htrue, _, _⟩
  · constructor
    · simp only [reloadInternalDocuments, h]
      simpa using hvs
    · simp only [reloadInternalDocuments, h]
      simpa using hcases.1
  · rw [h] at htrue; cases htrue

lemma reloadInternalDocuments_qa_fail (env : Env) (pdfs : List String) (s : AppState)
    (kept : VectorStore)
    (hok : (loadInternalDocuments env pdfs initialState).2 = true)
    (hvs : (loadInternalDocuments env pdfs initialState).1.vectorstore = some kept)
    (hqa : env.qaOk = false) :
    (reloadInternalDocuments env pdfs s).1.vectorstore = some kept ∧
    (reloadInternalDocuments env pdfs s).2 =
      .error ⟨500, "Error reloading documents: chain creation failed"⟩ := by
  constructor
  · simp [reloadInternalDocuments, createQaChain, hok, hvs, hqa, PyErr.msg]
  · simp [reloadInternalDocuments, createQaChain, hok, hvs, hqa, PyErr.msg]

lemma loadInternalDocuments_any_fail (env : Env) (pdfs : List String) (s : AppState)
    (hfail : ∃ p ∈ pdfs, ∃ m, env.loadPdf p = .error m) :
    (loadInternalDocuments env pdfs s).2 = false ∧
    (loadInternalDocuments env pdfs s).1.vectorstore = s.vectorstore := by
  have hll := loadLoop_fail env pdfs hfail [] []
  rcases (loadInternalDocuments_cases env pdfs s).2 with ⟨hf, hvs⟩ | ⟨_, htrue, _⟩
  · exact ⟨hf, hvs⟩
  · rw [hll] at htrue; cases htrue

/-! ### Claim C1 -/

set_option maxRecDepth 10000 in
/-- C1 fails on the code: the chunker is langchain CharacterTextSplitter,
which splits on blank-line separators and merges the pieces; it never cuts
at fixed character offsets.  A 600-character document with no separator is
returned as one chunk of length 600 under chunk_size = 300 and
chunk_overlap = 50, not as three chunks of lengths [300, 300, 70] at
offsets 0, 250, 500 as the claim requires. -/
theorem c1_counterexample :
    (splitText 300 50 (List.replicate 600 'A')).map List.length = [600] ∧
    (splitText 300 50 (List.replicate 600 'A')).map List.length ≠ [300, 300, 70] := by
  decide

/-- C1 (amended): splitting is deterministic and separator-based, not
offset-based: for every chunk_size and chunk_overlap, a document in which
the blank-line separator `"\n\n"` does not occur (lone newlines are
allowed) is returned as a single chunk, namely the whole document stripped
of surrounding whitespace, whatever its length. -/
theorem c1_amended (cs co : Nat) (t : List Char) (hn : ¬ (sepChars <:+: t))
    (hs : pyStrip t ≠ []) :
    splitText cs co t = [pyStrip t] := by
  have ht : t ≠ [] := by rintro rfl; exact hs rfl
  rw [splitText_no_sep cs co t hn ht, if_neg hs]

set_option maxRecDepth 40000 in
/-- Witness for c1_amended at the 600-character example named by the
claim, and at a document with a lone newline but no separator. -/
theorem c1_amended_witness :
    splitText 300 50 (List.replicate 600 'A') = [pyStrip (List.replicate 600 'A')] ∧
    splitText 300 50 ['a', '\n', 'b'] = [pyStrip ['a', '\n', 'b']] :=
  ⟨c1_amended 300 50 _ (by decide) (by decide),
   c1_amended 300 50 _ (by decide) (by decide)⟩

/-! ### Claim C2 -/

/-- C2 fails on the code: with the knowledge base Ready (one document
a.pdf ingested), uploading b.pdf while QA-chain recreation fails makes
upload_pdf report failure (HTTP 500) even though the registry already
contains b.pdf and the vector store already contains the new chunks — the
state is not as it was before the call. -/
theorem c2_counterexample :
    (uploadPdf envC2 sC2 "b.pdf" "tmp").2 =
      Except.error ⟨500, "Error processing PDF: chain creation failed"⟩ ∧
    (uploadPdf envC2 sC2 "b.pdf" "tmp").1.processedFiles = ["a.pdf", "b.pdf"] ∧
    sC2.processedFiles = ["a.pdf"] ∧
    (uploadPdf envC2 sC2 "b.pdf" "tmp").1.vectorstore ≠ sC2.vectorstore ∧
    (uploadPdf envC2 sC2 "b.pdf" "tmp").1.qaChain = sC2.qaChain := by
  refine ⟨rfl, rfl, rfl, ?_, rfl⟩
  decide

/-- C2 (amended): when ingestion of a further document fails during
loading, chunking or index extension (add_to_vectorstore raises),
upload_pdf leaves the whole state exactly unchanged and reports HTTP 500;
but when the failure is in QA-chain recreation, after the index was already
extended, the call reports failure while the registry and the index already
include the new document (and the chain keeps its previous value). -/
theorem c2_amended (env : Env) (s : AppState) (f p : String) (vs : VectorStore)
    (hpdf : pyEndsWith f ".pdf" = true) (hvs : s.vectorstore = some vs) :
    (∀ e, addToVectorstore env p vs 150 25 = .error e →
      uploadPdf env s f p = (s, .error ⟨500, "Error processing PDF: " ++ e.msg⟩)) ∧
    (∀ vs', addToVectorstore env p vs 150 25 = .ok vs' → env.qaOk = false →
      uploadPdf env s f p =
        ({ s with vectorstore := some vs', processedFiles := s.processedFiles ++ [f] },
         .error ⟨500, "Error processing PDF: chain creation failed"⟩)) :=
  ⟨fun e he => uploadPdf_extend_error env s f p vs e hpdf hvs he,
   fun vs' ha hq => uploadPdf_qa_fail env s f p vs vs' hpdf hvs ha hq⟩

/-- Witness for c2_amended: an embedding failure leaves the Ready state
untouched. -/
theorem c2_amended_witness :
    uploadPdf envW2 sC2 "b.pdf" "tmp" =
      (sC2, .error ⟨500, "Error processing PDF: " ++ PyErr.embedError.msg⟩) :=
  (c2_amended envW2 sC2 "b.pdf" "tmp" [docA] (by decide) rfl).1 .embedError rfl

/-! ### Claim C3 -/

/-- C3 fails on the code: for a directory with one loadable file good.pdf
and one corrupt file bad.pdf, load_internal_documents returns overall
failure (False), builds no vector store at all, and leaves good.pdf in the
processed-files registry; there is no partial success with a document
count of 1 and no failures list. -/
theorem c3_counterexample :
    (loadInternalDocuments envC3 ["good.pdf", "bad.pdf"] initialState).2 = false ∧
    (loadInternalDocuments envC3 ["good.pdf", "bad.pdf"] initialState).1.vectorstore
      = none ∧
    (loadInternalDocuments envC3 ["good.pdf", "bad.pdf"] initialState).1.processedFiles
      = ["good.pdf"] :=
  ⟨rfl, rfl, rfl⟩

/-- C3 (amended): directory ingestion is aborted by the first failing
file: if any file of the directory fails to load, the whole call reports
failure and the vector store is left unchanged (no partial index is
built); filenames processed before the failure remain appended to the
registry. -/
theorem c3_amended (env : Env) (pdfs : List String) (s : AppState)
    (hfail : ∃ p ∈ pdfs, ∃ m, env.loadPdf p = .error m) :
    (loadInternalDocuments env pdfs s).2 = false ∧
    (loadInternalDocuments env pdfs s).1.vectorstore = s.vectorstore :=
  loadInternalDocuments_any_fail env pdfs s hfail

/-- Witness for c3_amended at the good.pdf / bad.pdf directory. -/
theorem c3_amended_witness :
    (loadInternalDocuments envC3 ["good.pdf", "bad.pdf"] initialState).2 = false :=
  (c3_amended envC3 ["good.pdf", "bad.pdf"] initialState
    ⟨"bad.pdf", by decide, "corrupt", rfl⟩).1

/-! ### Claim C4 -/

/-- C4 (confirmed): every operation that inserts into the vector store
preserves the invariant that no stored entry has empty stripped text: the
initial build (create_vectorstore) and the directory load filter
empty-stripped chunks explicitly, and the incremental extension
(add_to_vectorstore), which has no such filter, only inserts chunks
produced by the splitter — and the splitter strips every chunk it emits
and drops the empty ones. -/
theorem c4_invariant (env : Env) (s : AppState) (f p : String) (pdfs : List String)
    (cs co : Nat) (hs : stateGood s) :
    stateGood (uploadPdf env s f p).1 ∧
    stateGood (loadInternalDocuments env pdfs s).1 ∧
    stateGood (reloadInternalDocuments env pdfs s).1 ∧
    stateGood (clearKnowledgeBase s).1 ∧
    (∀ v, createVectorstore env p cs co = .ok v → goodStore v) ∧
    (∀ vs v', goodStore vs → addToVectorstore env p vs cs co = .ok v' → goodStore v') :=
  ⟨uploadPdf_good env s f p hs,
   loadInternalDocuments_good env pdfs s hs,
   reloadInternalDocuments_good env pdfs s,
   clearKnowledgeBase_good s,
   fun v h => createVectorstore_good env p cs co v h,
   fun vs v' hg h => addToVectorstore_good env p vs cs co v' hg h⟩

/-- Witness for c4_invariant at a concrete upload into the empty state. -/
theorem c4_invariant_witness :
    stateGood (uploadPdf envW4 initialState "a.pdf" "tmp").1 :=
  (c4_invariant envW4 initialState "a.pdf" "tmp" [] 150 25 initialState_good).1

/-! ### Claim C5 -/

set_option maxRecDepth 4000 in
/-- C5 fails on the code: a query whose retrieved chunk has 201 characters
produces a source excerpt of length 203, because the code appends a
three-character continuation marker after the 200-character preview — the
excerpt exceeds the configured maximum of 200 characters. -/
theorem c5_counterexample :
    (queryDocument envC5 sC5 "q").map
        (fun r => r.sourceDocuments.map fun e => e.content.length) = .ok [203] ∧
    ¬(203 ≤ 200) :=
  ⟨rfl, by decide⟩

/-- C5 (amended): an answered query returns at most k = 3 source excerpts;
each excerpt is the chunk text itself when that text has at most 200
characters, and otherwise its first 200 characters followed by the
three-character marker (203 characters in total, hence bounded by 203, not
200); the marker is appended exactly when the chunk text exceeds 200
characters. -/
theorem c5_amended (env : Env) (s : AppState) (q : String) (chain : QAChain)
    (vs : VectorStore) (hcreate : createQaChain env vs = .ok chain)
    (hc : s.qaChain = some chain) (hg : env.genOk = true) :
    ∀ r, queryDocument env s q = .ok r →
      r.sourceDocuments.length ≤ 3 ∧
      ∀ e ∈ r.sourceDocuments,
        e.content.length ≤ 203 ∧
        ∃ d ∈ retrieveDocs env chain q,
          e.content = previewContent d.pageContent ∧
          ((200 < d.pageContent.length ∧
              e.content = pySlice d.pageContent 200 ++ ['.', '.', '.']) ∨
           (d.pageContent.length ≤ 200 ∧ e.content = d.pageContent)) := by
  intro r hr
  rw [queryDocument_ok env s q chain hc hg] at hr
  rw [Except.ok.injEq] at hr
  subst hr
  have hk : chain.k = 3 := by
    unfold createQaChain at hcreate
    split_ifs at hcreate
    rw [Except.ok.injEq] at hcreate
    subst hcreate
    rfl
  constructor
  · simp only [List.length_map]
    rw [← hk]
    exact retrieveDocs_length_le env chain q
  · intro e he
    simp only [List.mem_map] at he
    obtain ⟨d, hd, rfl⟩ := he
    refine ⟨previewContent_length_le d.pageContent, d, hd, rfl, ?_⟩
    by_cases hlen : 200 < d.pageContent.length
    · left
      exact ⟨hlen, by simp [previewContent, hlen]⟩
    · right
      refine ⟨by omega, ?_⟩
      simp only [previewContent]
      rw [if_neg (by omega)]

/-- Witness for c5_amended at a Ready state with one short chunk. -/
theorem c5_amended_witness :
    (({ answer := "ans",
        sourceDocuments := [{ content := ['h', 'i'], metadata := docW5.metadata }] } :
      QueryResponse)).sourceDocuments.length ≤ 3 :=
  ((c5_amended envW5 sW5 "q" chainW5 [docW5] rfl rfl rfl) _ rfl).1

/-! ### Claim C6 -/

/-- C6 (confirmed): a query issued while no QA chain is set — the state
before any successful ingestion, and the state after clearing — is
answered with the HTTP 400 condition telling the caller to ingest
documents first, and never with a generated answer. -/
theorem c6_not_ready (env : Env) (s : AppState) (q : String) (h : s.qaChain = none) :
    queryDocument env s q = Except.error
      ⟨400, "Please add documents to internal_documents directory or upload a PDF first"⟩ ∧
    ∀ r, queryDocument env s q ≠ Except.ok r := by
  constructor
  · simp [queryDocument, h]
  · intro r
    simp [queryDocument, h]

/-- Witness for c6_not_ready at the initial (Empty) state. -/
theorem c6_not_ready_witness :
    queryDocument envC6 initialState "what is an ISA" = Except.error
      ⟨400, "Please add documents to internal_documents directory or upload a PDF first"⟩ :=
  (c6_not_ready envC6 initialState "what is an ISA" rfl).1

/-! ### Claim C7 -/

/-- C7 fails on the code: the splitter accepts chunk_overlap equal to
chunk_size (the langchain check only rejects an overlap strictly greater
than the size), and validation happens only when the splitter is
constructed, which is after the PDF has been loaded: with a failing loader
and overlap 7 against size 3, create_vectorstore surfaces the load error,
not a configuration error. -/
theorem c7_counterexample :
    splitterInit 5 5 = Except.ok () ∧
    createVectorstore envC7 "doc.pdf" 3 7 = Except.error (PyErr.loadError "boom") :=
  ⟨rfl, rfl⟩

/-- C7 (amended): splitter construction succeeds iff
chunk_overlap ≤ chunk_size (only a strictly larger overlap raises
ValueError), and in create_vectorstore the document is loaded before the
splitter is constructed, so a load failure preempts any configuration
rejection. -/
theorem c7_amended (cs co : Nat) :
    (splitterInit cs co = Except.ok () ↔ co ≤ cs) ∧
    (∀ env p m, env.loadPdf p = .error m →
      createVectorstore env p cs co = .error (.loadError m)) := by
  constructor
  · unfold splitterInit
    split_ifs with h
    · constructor
      · intro he; simp at he
      · intro hle; omega
    · constructor
      · intro _; omega
      · intro _; rfl
  · intro env p m hm
    simp [createVectorstore, hm]

/-- Witness for c7_amended with invalid chunk parameters and a failing
loader. -/
theorem c7_amended_witness :
    createVectorstore envC7 "doc.pdf" 3 7 = Except.error (PyErr.loadError "boom") :=
  (c7_amended 3 7).2 envC7 "doc.pdf" "boom" rfl

/-! ### Claim C8 -/

/-- C8 fails on the code: the standalone rag_chatbot script hardcodes
chain_type map_reduce for every query it answers, making one generation
call per retrieved passage plus a combine call (4 calls for 3 passages),
not a single stuff-style call. -/
theorem c8_counterexample :
    ragChatbotChainType = ChainType.mapReduce ∧
    ragChatbotChainType ≠ ChainType.stuff ∧
    generatorCallCount ragChatbotChainType 3 = 4 ∧
    generatorCallCount ChainType.stuff 3 = 1 := by
  decide

/-- C8 (amended): the backend QA chain is always built with chain_type
stuff, one generation call per query over the joined passages; the
rag_chatbot script is hardcoded to map_reduce with numPassages + 1
generation calls per query; each entry point fixes its strategy as a
constant, so the strategy is not a selectable documented mode. -/
theorem c8_amended (env : Env) (vs : VectorStore) (chain : QAChain) (n : Nat)
    (h : createQaChain env vs = .ok chain) :
    chain.chainType = ChainType.stuff ∧
    generatorCallCount chain.chainType n = 1 ∧
    ragChatbotChainType = ChainType.mapReduce ∧
    generatorCallCount ragChatbotChainType n = n + 1 := by
  unfold createQaChain at h
  split_ifs at h with hq
  rw [Except.ok.injEq] at h
  subst h
  exact ⟨rfl, rfl, rfl, rfl⟩

/-- Witness for c8_amended at a concrete chain built by create_qa_chain. -/
theorem c8_amended_witness :
    QAChain.chainType chainW8 = ChainType.stuff ∧
    generatorCallCount chainW8.chainType 2 = 1 ∧
    ragChatbotChainType = ChainType.mapReduce ∧
    generatorCallCount ragChatbotChainType 2 = 2 + 1 :=
  c8_amended envC8 [] chainW8 2 rfl

/-! ### Claim C10 -/

/-- C10 fails on the code in its second half: reload does clear the state
unconditionally, but a chain-creation failure after a successful load
leaves the freshly built vector store (and registry) populated while the
call reports HTTP 500 — the knowledge base is then not Empty. -/
theorem c10_counterexample :
    (reloadInternalDocuments envC10 ["good.pdf"] initialState).2 =
      Except.error ⟨500, "Error reloading documents: chain creation failed"⟩ ∧
    (reloadInternalDocuments envC10 ["good.pdf"] initialState).1.vectorstore ≠ none := by
  refine ⟨rfl, ?_⟩
  decide

/-- C10 (amended): reload clears unconditionally — its result does not
depend on the prior state at all; when the reload fails during loading,
the vector store and the chain are indeed left unset (though filenames of
files processed before a mid-directory failure remain in the registry);
but when chain creation fails after a successful load, the vector store
stays populated while the call reports failure, so the base is not left
Empty. -/
theorem c10_amended (env : Env) (pdfs : List String) (s s' : AppState) :
    reloadInternalDocuments env pdfs s = reloadInternalDocuments env pdfs s' ∧
    ((loadInternalDocuments env pdfs initialState).2 = false →
      (reloadInternalDocuments env pdfs s).1.vectorstore = none ∧
      (reloadInternalDocuments env pdfs s).1.qaChain = none) ∧
    (∀ kept, (loadInternalDocuments env pdfs initialState).2 = true →
      (loadInternalDocuments env pdfs initialState).1.vectorstore = some kept →
      env.qaOk = false →
      (reloadInternalDocuments env pdfs s).1.vectorstore = some kept ∧
      (reloadInternalDocuments env pdfs s).2 =
        Except.error ⟨500, "Error reloading documents: chain creation failed"⟩) :=
  ⟨rfl,
   fun h => reloadInternalDocuments_load_fail env pdfs s h,
   fun kept hok hvs hqa => reloadInternalDocuments_qa_fail env pdfs s kept hok hvs hqa⟩

/-- Witness for c10_amended: the chain-creation-failure path with one
loadable internal document. -/
theorem c10_amended_witness :
    (reloadInternalDocuments envC10 ["good.pdf"] initialState).1.vectorstore =
      some [{ pageContent := ['f', 'c', 'a'], metadata :=
        { source := "good.pdf", page := 0, sourceFile := some "good.pdf" } }] ∧
    (reloadInternalDocuments envC10 ["good.pdf"] initialState).2 =
      Except.error ⟨500, "Error reloading documents: chain creation failed"⟩ :=
  (c10_amended envC10 ["good.pdf"] initialState initialState).2.2 _ rfl rfl rfl

end FCAChatbot
